import Mathlib

/-!
Verification of the ULTRADATA table profiler (`core/processador.py`).

The module holds two static operations over a pandas DataFrame:
`encontrar_duplicidades` (exact-key duplicate detection, spec name
`findDuplicates`) and `analisar_coluna` (per-column statistics, spec name
`analyzeColumn`).  The DataFrame is modelled as an ordered list of rows over
a fixed column list; a cell is a nullable scalar (`none` models pandas
NaN/None).  The spec's method tag `"exact"` is the source's `'sku'`, and the
spec's "identifier" column is the source's `'sku'` column.
-/

/-- A scalar cell value as it appears in the product tables: an integer or a
string. -/
inductive PyVal where
  | int (n : ℤ)
  | str (s : String)
deriving Repr, DecidableEq

/-- A table cell: `none` models a pandas null (NaN / None). -/
abbrev Cell := Option PyVal

/-- A table row, cells in column order. -/
abbrev Row := List Cell

/-- A pandas DataFrame: an ordered column list and an ordered list of rows.
Every row is read positionally against `cols`; a missing trailing cell reads
as null. -/
structure Table where
  cols : List String
  rows : List Row
deriving Repr, DecidableEq

/-- The cell of row `r` in the column named `c` (position of the first column
named `c` in `df.cols`). -/
def Table.cell (df : Table) (c : String) (r : Row) : Cell :=
  r.getD (df.cols.findIdx (fun x => x == c)) none

/-- The pandas series `df[c]`: the cells of column `c` in row order. -/
def Table.col (df : Table) (c : String) : List Cell :=
  df.rows.map (df.cell c)

/-- The pandas mask `series.duplicated(keep=False)`: marks every entry whose
value occurs at least twice in the series.  Pandas treats two nulls as the
same key here, which `Option` equality reproduces. -/
def duplicatedKeepFalse (vals : List Cell) : List Bool :=
  vals.map (fun v => decide (2 ≤ vals.count v))

/-- The pandas boolean-mask selection `df[mask]`: keeps the rows whose mask
entry is `true`, in order. -/
def selectRows (rows : List Row) (mask : List Bool) : List Row :=
  (rows.zip mask).filterMap (fun p => if p.2 then some p.1 else none)

/-- `ProcessadorULTRADATA.encontrar_duplicidades(df, colunas, metodo)`.
Source defaults are `colunas = ['sku', 'nome']` and `metodo = 'sku'`
(`'sku'` is the exact-match method tag).  The body never reads `colunas`:
when `metodo == 'sku'` and the `'sku'` column is present it returns
`df[df.duplicated(subset=['sku'], keep=False)]`, otherwise the initial
empty `pd.DataFrame()`. -/
def encontrar_duplicidades (df : Table) (colunas : List String) (metodo : String) : Table :=
  let duplicados : Table := { cols := [], rows := [] }
  if metodo = "sku" ∧ "sku" ∈ df.cols then
    { cols := df.cols, rows := selectRows df.rows (duplicatedKeepFalse (df.col "sku")) }
  else duplicados

/-- Round `num / den` (with `den ≠ 0`) half to even to the nearest natural:
the rounding CPython applies when formatting a nonnegative value. -/
def rhe (num den : ℕ) : ℕ :=
  let q := num / den
  let r := num % den
  if 2 * r < den then q
  else if den < 2 * r then q + 1
  else if q % 2 = 0 then q else q + 1

/-- The Python formatting `f"{x:.1f}"` for the nonnegative ratio
`x = num / den` (`den ≠ 0`), computed on the exact rational: round half to
even at the first fractional digit, then print integer part, a dot, and the
one fractional digit. -/
def fmt1f (num den : ℕ) : String :=
  let n := rhe (num * 10) den
  Nat.repr (n / 10) ++ "." ++ Nat.repr (n % 10)

/-- The dictionary `analisar_coluna` builds for a present column. -/
structure Analise where
  total : ℕ
  preenchidos : ℕ
  vazios : ℕ
  taxa_preenchimento : String
  valores_unicos : ℕ
  exemplos : List PyVal
deriving Repr, DecidableEq

/-- `ProcessadorULTRADATA.analisar_coluna(df, nome_coluna)`.  Returns
`.ok none` (the Python `None` sentinel) when the column is absent; otherwise
computes the statistics dictionary from `valores = df[nome_coluna].dropna()`.
`.error ()` models the Python `ZeroDivisionError` that
`len(valores)/len(df)` raises when the table has no rows. -/
def analisar_coluna (df : Table) (nome_coluna : String) : Except Unit (Option Analise) :=
  if nome_coluna ∈ df.cols then
    let coluna := df.col nome_coluna
    let valores := coluna.filterMap id
    if df.rows.length = 0 then .error ()
    else .ok (some {
      total := df.rows.length
      preenchidos := valores.length
      vazios := (coluna.filter (fun v => v.isNone)).length
      taxa_preenchimento := fmt1f (valores.length * 100) df.rows.length ++ "%"
      valores_unicos := valores.dedup.length
      exemplos := if valores.isEmpty then [] else valores.take 5 })
  else .ok none

/-- The three-row table of the spec's duplicate scenario:
`[{id:1,name:"A"}, {id:2,name:"B"}, {id:1,name:"A2"}]` with the identifier
column named `sku` as in the source. -/
def tabelaDup : Table :=
  { cols := ["sku", "nome"],
    rows := [[some (PyVal.int 1), some (PyVal.str "A")],
             [some (PyVal.int 2), some (PyVal.str "B")],
             [some (PyVal.int 1), some (PyVal.str "A2")]] }

/-- The five-row table of the spec's column scenario: one column `categoria`
holding `[null, "X", "X", null, "Y"]`. -/
def tabelaCat : Table :=
  { cols := ["categoria"],
    rows := [[none], [some (PyVal.str "X")], [some (PyVal.str "X")],
             [none], [some (PyVal.str "Y")]] }

/-- A two-row table whose first key column `nome` holds a duplicated value
while its `sku` column does not. -/
def tabelaNome : Table :=
  { cols := ["nome", "sku"],
    rows := [[some (PyVal.str "A"), some (PyVal.int 1)],
             [some (PyVal.str "A"), some (PyVal.int 2)]] }

/-- A table with two null identifier cells. -/
def tabelaNulos : Table := { cols := ["sku"], rows := [[none], [none]] }

example : (encontrar_duplicidades tabelaDup ["sku", "nome"] "sku").rows
    = [[some (PyVal.int 1), some (PyVal.str "A")],
       [some (PyVal.int 1), some (PyVal.str "A2")]] := by decide

example : analisar_coluna tabelaCat "categoria"
    = .ok (some { total := 5, preenchidos := 3, vazios := 2,
                  taxa_preenchimento := "60.0%", valores_unicos := 2,
                  exemplos := [PyVal.str "X", PyVal.str "X", PyVal.str "Y"] }) := rfl

example : analisar_coluna { cols := ["sku"], rows := [] } "sku" = .error () := rfl

example : analisar_coluna tabelaCat "sku" = .ok none := rfl

/-- Selecting rows by a mask that is the pointwise image of the rows is the
same as filtering the rows by that predicate. -/
theorem selectRows_map (p : Row → Bool) (rows : List Row) :
    selectRows rows (rows.map p) = rows.filter p := by
  induction rows with
  | nil => rfl
  | cons r rs ih =>
    have step : selectRows (r :: rs) ((r :: rs).map p)
        = if p r then r :: selectRows rs (rs.map p) else selectRows rs (rs.map p) := by
      simp only [selectRows, List.map_cons, List.zip_cons_cons, List.filterMap_cons]
      cases p r <;> simp
    rw [step, List.filter_cons]
    cases hp : p r <;> simp [hp, ih]

/-- With the exact method and the identifier column present, the rows that
`encontrar_duplicidades` returns are the input rows whose `sku` cell occurs
at least twice in the `sku` column, in input order. -/
theorem encontrar_rows_filter (df : Table) (colunas : List String)
    (h : "sku" ∈ df.cols) :
    (encontrar_duplicidades df colunas "sku").rows
      = df.rows.filter (fun r => decide (2 ≤ (df.col "sku").count (df.cell "sku" r))) := by
  have hm : duplicatedKeepFalse (df.col "sku")
      = df.rows.map (fun r => decide (2 ≤ (df.col "sku").count (df.cell "sku" r))) := by
    simp only [duplicatedKeepFalse, Table.col, List.map_map]
    rfl
  simp [encontrar_duplicidades, h, hm, selectRows_map]

/-- The non-null cells and the null cells of a column partition it. -/
theorem filterMap_id_add_filter_isNone (l : List Cell) :
    (l.filterMap id).length + (l.filter (fun v => v.isNone)).length = l.length := by
  induction l with
  | nil => rfl
  | cons v vs ih =>
    cases v <;> simp [List.filterMap_cons, List.filter_cons] <;> omega

/-- Inversion of `analisar_coluna` on a successful analysis: the returned
dictionary is exactly the one computed from the column's cells. -/
theorem analisar_fields (df : Table) (c : String) (a : Analise)
    (h : analisar_coluna df c = .ok (some a)) :
    a = { total := df.rows.length
          preenchidos := ((df.col c).filterMap id).length
          vazios := ((df.col c).filter (fun v => v.isNone)).length
          taxa_preenchimento := fmt1f (((df.col c).filterMap id).length * 100) df.rows.length ++ "%"
          valores_unicos := ((df.col c).filterMap id).dedup.length
          exemplos := if ((df.col c).filterMap id).isEmpty then []
                      else ((df.col c).filterMap id).take 5 } := by
  unfold analisar_coluna at h
  split at h
  · split at h
    · simp at h
    · simp only [Except.ok.injEq, Option.some.injEq] at h
      exact h.symm
  · simp at h

/-- A successful analysis happens exactly on a present column of a non-empty
table. -/
theorem analisar_ok_conditions (df : Table) (c : String) (a : Analise)
    (h : analisar_coluna df c = .ok (some a)) :
    c ∈ df.cols ∧ df.rows.length ≠ 0 := by
  unfold analisar_coluna at h
  split at h
  · split at h
    · simp at h
    · refine ⟨by assumption, by assumption⟩
  · simp at h

/-- C1: with the exact method and the identifier column present,
`encontrar_duplicidades` returns exactly the rows whose identifier (`sku`)
value has multiplicity at least 2 in the table — every occurrence is
returned and no row of multiplicity 1 is — and the result is a sublist of
the input rows, so the original relative order is preserved. -/
theorem c1_encontrar_exact_marks_all (df : Table) (colunas : List String)
    (h : "sku" ∈ df.cols) :
    (encontrar_duplicidades df colunas "sku").rows
        = df.rows.filter (fun r => decide (2 ≤ (df.col "sku").count (df.cell "sku" r)))
      ∧ List.Sublist (encontrar_duplicidades df colunas "sku").rows df.rows
      ∧ ∀ r, r ∈ (encontrar_duplicidades df colunas "sku").rows
          ↔ r ∈ df.rows ∧ 2 ≤ (df.col "sku").count (df.cell "sku" r) := by
  have hf := encontrar_rows_filter df colunas h
  refine ⟨hf, ?_, ?_⟩
  · rw [hf]
    exact List.filter_sublist df.rows
  · intro r
    rw [hf, List.mem_filter]
    simp

/-- Witness for C1 at the spec's concrete three-row table: the result is the
rows at indices 0 and 2 (both with identifier 1) and not the row at
index 1. -/
theorem c1_witness :
    (encontrar_duplicidades tabelaDup ["sku", "nome"] "sku").rows
      = [[some (PyVal.int 1), some (PyVal.str "A")],
         [some (PyVal.int 1), some (PyVal.str "A2")]] := by
  rw [(c1_encontrar_exact_marks_all tabelaDup ["sku", "nome"] (by decide)).1]
  decide

/-- C6: whatever table and key column list are passed, if the method is not
the exact tag or the identifier column is absent, `encontrar_duplicidades`
returns the initial empty DataFrame, deterministically and without error. -/
theorem c6_encontrar_fallback_empty (df : Table) (colunas : List String) (metodo : String)
    (h : metodo ≠ "sku" ∨ "sku" ∉ df.cols) :
    encontrar_duplicidades df colunas metodo = { cols := [], rows := [] } := by
  have hc : ¬(metodo = "sku" ∧ "sku" ∈ df.cols) := by tauto
  simp [encontrar_duplicidades, hc]

/-- Witness for C6: the similarity method tag `nome` yields the empty
result on the concrete three-row table. -/
theorem c6_witness :
    encontrar_duplicidades tabelaDup ["sku", "nome"] "nome" = { cols := [], rows := [] } :=
  c6_encontrar_fallback_empty tabelaDup ["sku", "nome"] "nome" (Or.inl (by decide))

/-- C7 counterexample: with key columns `["nome"]` the first-listed column's
value "A" has multiplicity 2, yet the exact method returns no rows — the
duplicate key is not taken from the `colunas` argument. -/
theorem c7_counterexample :
    2 ≤ (tabelaNome.col "nome").count (some (PyVal.str "A"))
      ∧ (encontrar_duplicidades tabelaNome ["nome"] "sku").rows = [] := by
  decide

/-- C7 amended: `encontrar_duplicidades` never reads its `colunas` argument —
any two key column lists give identical results — and with the exact method
it always keys on the fixed identifier column `sku`. -/
theorem c7_colunas_ignored (df : Table) (colunas colunas2 : List String) (metodo : String)
    (h : "sku" ∈ df.cols) :
    encontrar_duplicidades df colunas metodo = encontrar_duplicidades df colunas2 metodo
      ∧ (encontrar_duplicidades df colunas "sku").rows
          = df.rows.filter (fun r => decide (2 ≤ (df.col "sku").count (df.cell "sku" r))) :=
  ⟨rfl, encontrar_rows_filter df colunas h⟩

/-- Witness for C7's amended claim on the two-row `nome`-keyed table. -/
theorem c7_witness :
    encontrar_duplicidades tabelaNome ["nome"] "sku"
        = encontrar_duplicidades tabelaNome ["sku", "nome"] "sku"
      ∧ (encontrar_duplicidades tabelaNome ["nome"] "sku").rows
          = tabelaNome.rows.filter
              (fun r => decide (2 ≤ (tabelaNome.col "sku").count (tabelaNome.cell "sku" r))) :=
  c7_colunas_ignored tabelaNome ["nome"] ["sku", "nome"] "sku" (by decide)

/-- C10: the exact method treats null identifier values as equal keys:
whenever the `sku` column is present and holds at least two nulls, every row
whose `sku` cell is null belongs to the returned duplicate set. -/
theorem c10_null_keys_are_equal (df : Table) (colunas : List String)
    (h : "sku" ∈ df.cols) (h2 : 2 ≤ (df.col "sku").count none) :
    ∀ r ∈ df.rows, df.cell "sku" r = none →
      r ∈ (encontrar_duplicidades df colunas "sku").rows := by
  intro r hr hcell
  rw [encontrar_rows_filter df colunas h, List.mem_filter]
  refine ⟨hr, ?_⟩
  rw [hcell]
  exact decide_eq_true h2

/-- Witness for C10: on a table of two null-identifier rows, the null row is
in the duplicate set. -/
theorem c10_witness :
    [(none : Cell)] ∈ (encontrar_duplicidades tabelaNulos ["sku"] "sku").rows :=
  c10_null_keys_are_equal tabelaNulos ["sku"] (by decide) (by decide) [none] (by decide)
    (by decide)

/-- C2 counterexample: on the empty table with a present `sku` column the
fill-rate computation is not guarded: the call ends in the modelled
`ZeroDivisionError`, not in a defined result such as `"0.0%"`. -/
theorem c2_counterexample :
    analisar_coluna { cols := ["sku"], rows := [] } "sku" = .error () := rfl

/-- C2 amended: on a table with no rows, `analisar_coluna` on a present
column fails with the division-by-zero error raised by
`len(valores)/len(df)`; no fill-rate policy for the empty table exists in
the code. -/
theorem c2_empty_table_divide_error (df : Table) (c : String)
    (h : c ∈ df.cols) (h0 : df.rows = []) :
    analisar_coluna df c = .error () := by
  simp [analisar_coluna, h, h0]

/-- Witness for C2's amended claim on an empty `categoria` table. -/
theorem c2_witness :
    analisar_coluna { cols := ["categoria"], rows := [] } "categoria" = .error () :=
  c2_empty_table_divide_error { cols := ["categoria"], rows := [] } "categoria"
    (by decide) rfl

/-- C3: every ColumnProfile that `analisar_coluna` returns satisfies
`preenchidos + vazios = total` — the null-mask count and the dropna count
partition the column — and `total` is the table's row count. -/
theorem c3_counts_add_up (df : Table) (c : String) (a : Analise)
    (h : analisar_coluna df c = .ok (some a)) :
    a.preenchidos + a.vazios = a.total ∧ a.total = df.rows.length := by
  have ha := analisar_fields df c a h
  rw [ha]
  dsimp only
  refine ⟨?_, rfl⟩
  rw [filterMap_id_add_filter_isNone (df.col c)]
  simp [Table.col]

/-- Witness for C3 at the spec's concrete five-row column scenario. -/
theorem c3_witness : (3 : ℕ) + 2 = 5 ∧ (5 : ℕ) = tabelaCat.rows.length :=
  c3_counts_add_up tabelaCat "categoria"
    { total := 5, preenchidos := 3, vazios := 2, taxa_preenchimento := "60.0%",
      valores_unicos := 2, exemplos := [PyVal.str "X", PyVal.str "X", PyVal.str "Y"] } rfl

/-- A natural below ten prints as a single digit. -/
theorem repr_one_digit (m : ℕ) (h : m < 10) : (Nat.repr m).length = 1 := by
  interval_cases m <;> rfl

/-- C4: the spec's concrete column scenario (`categoria` =
`[null, "X", "X", null, "Y"]`) evaluates exactly as stated, and in general
the fill rate of every returned profile is the one-fractional-digit
rendering of `preenchidos / total * 100` followed by a `%` sign. -/
theorem c4_concrete_and_fill_rate_format :
    analisar_coluna tabelaCat "categoria"
        = .ok (some { total := 5, preenchidos := 3, vazios := 2,
                      taxa_preenchimento := "60.0%", valores_unicos := 2,
                      exemplos := [PyVal.str "X", PyVal.str "X", PyVal.str "Y"] })
      ∧ ∀ (df : Table) (c : String) (a : Analise), analisar_coluna df c = .ok (some a) →
          a.taxa_preenchimento = fmt1f (a.preenchidos * 100) a.total ++ "%"
          ∧ ∃ n : ℕ, a.taxa_preenchimento
                = Nat.repr (n / 10) ++ "." ++ Nat.repr (n % 10) ++ "%"
              ∧ (Nat.repr (n % 10)).length = 1 := by
  refine ⟨rfl, ?_⟩
  intro df c a h
  have ha := analisar_fields df c a h
  constructor
  · rw [ha]
  · refine ⟨rhe (((df.col c).filterMap id).length * 100 * 10) df.rows.length, ?_, ?_⟩
    · rw [ha]
      rfl
    · exact repr_one_digit _ (Nat.mod_lt _ (by norm_num))

/-- Witness for C4's general clause at the concrete scenario. -/
theorem c4_witness :
    ("60.0%" : String) = fmt1f (3 * 100) 5 ++ "%"
      ∧ ∃ n : ℕ, ("60.0%" : String)
            = Nat.repr (n / 10) ++ "." ++ Nat.repr (n % 10) ++ "%"
          ∧ (Nat.repr (n % 10)).length = 1 :=
  c4_concrete_and_fill_rate_format.2 tabelaCat "categoria"
    { total := 5, preenchidos := 3, vazios := 2, taxa_preenchimento := "60.0%",
      valores_unicos := 2, exemplos := [PyVal.str "X", PyVal.str "X", PyVal.str "Y"] } rfl

/-- C5 counterexample: the column `nome` is present in the empty table, yet
`analisar_coluna` produces neither a ColumnProfile nor the sentinel — it
fails with the division-by-zero error, refuting "when c is present, it
returns a ColumnProfile" as universally stated. -/
theorem c5_counterexample :
    "nome" ∈ Table.cols { cols := ["nome"], rows := [] }
      ∧ analisar_coluna { cols := ["nome"], rows := [] } "nome" = .error () :=
  ⟨by decide, rfl⟩

/-- C5 amended: `analisar_coluna` returns the `None` sentinel exactly when
the column is absent, and returns a ColumnProfile whenever the column is
present and the table is non-empty (on a present column of an empty table
it instead fails with the division-by-zero error). -/
theorem c5_sentinel_iff_absent (df : Table) (c : String) :
    (analisar_coluna df c = .ok none ↔ c ∉ df.cols)
      ∧ (c ∈ df.cols → df.rows ≠ [] → ∃ a, analisar_coluna df c = .ok (some a)) := by
  constructor
  · by_cases hc : c ∈ df.cols
    · by_cases h0 : df.rows.length = 0
      · simp [analisar_coluna, hc, h0]
      · simp [analisar_coluna, hc, h0]
    · simp [analisar_coluna, hc]
  · intro hc h0
    have hl : ¬(df.rows.length = 0) := by
      simpa [List.length_eq_zero] using h0
    exact ⟨_, by unfold analisar_coluna; rw [if_pos hc, if_neg hl]⟩

/-- Witness for C5's profile branch at the concrete five-row table. -/
theorem c5_witness : ∃ a, analisar_coluna tabelaCat "categoria" = .ok (some a) :=
  (c5_sentinel_iff_absent tabelaCat "categoria").2 (by decide) (by decide)

/-- C8: the samples of every returned ColumnProfile are the first five
non-null values of the column in original row order: exactly the first
`min 5 preenchidos` of them, hence never more than five, and the empty list
when the column has no non-null value. -/
theorem c8_exemplos_first_five (df : Table) (c : String) (a : Analise)
    (h : analisar_coluna df c = .ok (some a)) :
    a.exemplos = ((df.col c).filterMap id).take 5
      ∧ a.exemplos.length ≤ 5
      ∧ a.exemplos.length = min 5 a.preenchidos
      ∧ ((df.col c).filterMap id = [] → a.exemplos = []) := by
  have ha := analisar_fields df c a h
  have he : a.exemplos = ((df.col c).filterMap id).take 5 := by
    rw [ha]
    dsimp only
    cases hl : (df.col c).filterMap id <;> simp [hl]
  have hp : a.preenchidos = ((df.col c).filterMap id).length := by rw [ha]
  refine ⟨he, ?_, ?_, ?_⟩
  · rw [he, List.length_take]
    exact min_le_left _ _
  · rw [he, hp, List.length_take]
  · intro h0
    rw [he, h0]
    rfl

/-- Witness for C8 at the concrete five-row table. -/
theorem c8_witness :
    ([PyVal.str "X", PyVal.str "X", PyVal.str "Y"] : List PyVal)
        = ((tabelaCat.col "categoria").filterMap id).take 5
      ∧ ([PyVal.str "X", PyVal.str "X", PyVal.str "Y"] : List PyVal).length ≤ 5
      ∧ ([PyVal.str "X", PyVal.str "X", PyVal.str "Y"] : List PyVal).length = min 5 3
      ∧ ((tabelaCat.col "categoria").filterMap id = []
          → ([PyVal.str "X", PyVal.str "X", PyVal.str "Y"] : List PyVal) = []) :=
  c8_exemplos_first_five tabelaCat "categoria"
    { total := 5, preenchidos := 3, vazios := 2, taxa_preenchimento := "60.0%",
      valores_unicos := 2, exemplos := [PyVal.str "X", PyVal.str "X", PyVal.str "Y"] } rfl

/-- C9: both operations are pure functions of their arguments: a repeated
call on the same unmodified table gives the identical result, and the
duplicate finder only selects existing rows (its output rows are a sublist
of the input rows) — the embedding is a pure function of the table
snapshot, matching the source, which performs no in-place pandas
operation. -/
theorem c9_pure_operations (df : Table) (colunas : List String) (metodo : String)
    (c : String) :
    encontrar_duplicidades df colunas metodo = encontrar_duplicidades df colunas metodo
      ∧ analisar_coluna df c = analisar_coluna df c
      ∧ List.Sublist (encontrar_duplicidades df colunas metodo).rows df.rows := by
  refine ⟨rfl, rfl, ?_⟩
  by_cases hc : metodo = "sku" ∧ "sku" ∈ df.cols
  · obtain ⟨hm, hs⟩ := hc
    subst hm
    rw [encontrar_rows_filter df colunas hs]
    exact List.filter_sublist df.rows
  · have hv : encontrar_duplicidades df colunas metodo = { cols := [], rows := [] } := by
      simp only [encontrar_duplicidades, if_neg hc]
    rw [hv]
    exact List.nil_sublist df.rows
